import Mathlib

/-!
Verification of the korean-parent-translator translation-and-validation
pipeline.

The development shallowly embeds the server-side services of the
repository:

* `src/server/services/ai.js` — language detection, token-overlap
  similarity scoring, custom-rule transformation, the DeepL formality
  fallback, alternatives, and the Perplexity-rephrase variation strategy;
* `src/unnamed/part_001` (first document) — the DeepL-only variant whose
  `generateVariation` cycles through formality levels;
* `src/server/services/profiles.js` — the profile store operations.

Texts are Lean `String`s (lists of Unicode scalar values); the external
translation backends are modelled as explicit function parameters
returning `Except`, so that thrown errors become `.error` values.
JavaScript number arithmetic on scores is modelled over `ℚ`
(`Math.round x` becomes `round : ℚ → ℤ`, i.e. `⌊x + 1/2⌋`).
-/

namespace KPT

/-- Characters matched by the detector's regex
`[가-힯ᄀ-ᇿ㄰-㆏]` (ai.js line 43). -/
def isKoreanChar (c : Char) : Bool :=
  (0xAC00 ≤ c.toNat && c.toNat ≤ 0xD7AF) ||
  (0x1100 ≤ c.toNat && c.toNat ≤ 0x11FF) ||
  (0x3130 ≤ c.toNat && c.toNat ≤ 0x318F)

/-- Characters matched by the JavaScript regex class `\s`
(ECMAScript WhiteSpace ∪ LineTerminator). -/
def isJsWhitespace (c : Char) : Bool :=
  c.toNat = 0x9 || c.toNat = 0xA || c.toNat = 0xB || c.toNat = 0xC ||
  c.toNat = 0xD || c.toNat = 0x20 || c.toNat = 0xA0 || c.toNat = 0x1680 ||
  (0x2000 ≤ c.toNat && c.toNat ≤ 0x200A) || c.toNat = 0x2028 ||
  c.toNat = 0x2029 || c.toNat = 0x202F || c.toNat = 0x205F ||
  c.toNat = 0x3000 || c.toNat = 0xFEFF

/-- `detectLanguage` (ai.js lines 42-48).  The source regex carries no `g`
flag, so `text.match(koreanRegex)` yields the first match only and
`(text.match(koreanRegex) || []).length` is `1` when the text contains a
Korean-range character and `0` otherwise.  `totalChars` counts the
non-whitespace characters.  The IEEE-double comparison
`koreanChars / totalChars > 0.3` with `koreanChars ∈ {0, 1}` is exact:
for `koreanChars = 0` it is false (`0 > 0.3` and `NaN > 0.3` are false,
the latter covering `totalChars = 0`), and for `koreanChars = 1` it holds
iff `totalChars ≤ 3`, which the integer comparison
`3 * totalChars < 10 * koreanChars` reproduces (`1/0 = Infinity` would
give `"ko"`, kept as the degenerate branch below, though it is
unreachable because a Korean character is itself non-whitespace). -/
def detectLanguage (text : String) : String :=
  let koreanChars : Nat := if text.data.any isKoreanChar then 1 else 0
  let totalChars : Nat := (text.data.filter (fun c => !isJsWhitespace c)).length
  if totalChars = 0 then
    (if koreanChars = 0 then "en" else "ko")
  else if 3 * totalChars < 10 * koreanChars then "ko" else "en"

/-- Reference detector following the specification's words (§4.1): it
"counts characters matching the Hangul syllable/jamo Unicode ranges",
computes `koreanCharRatio = koreanCount / nonWhitespaceCharCount` and
returns `"ko"` iff the ratio is strictly greater than `0.3`, treating an
empty non-whitespace count as `"en"`. -/
def detectLanguageRef (text : String) : String :=
  let koreanCount : Nat := (text.data.filter isKoreanChar).length
  let totalChars : Nat := (text.data.filter (fun c => !isJsWhitespace c)).length
  if totalChars = 0 then "en"
  else if 3 * totalChars < 10 * koreanCount then "ko" else "en"

/-- No character is both Korean-range and JavaScript whitespace. -/
theorem isKoreanChar_not_whitespace (c : Char) (h : isKoreanChar c = true) :
    isJsWhitespace c = false := by
  simp only [isKoreanChar, Bool.or_eq_true, Bool.and_eq_true, decide_eq_true_eq] at h
  simp only [isJsWhitespace, Bool.or_eq_false_iff, Bool.and_eq_false_iff,
    decide_eq_false_iff_not, not_le]
  omega

/-- Claim C1 (code bug): the detector does not classify the all-Hangul
text "안녕하세요" as Korean.  Its five syllables all lie in the range
`가-힯`, so the specified ratio is `5/5 = 1 > 0.3` and the
reference detector answers `"ko"`, but the code — whose regex lacks the
`g` flag and therefore counts at most one Korean character — computes
`1/5 = 0.2 ≤ 0.3` and answers `"en"`. -/
theorem detectLanguage_hangul_code_bug :
    detectLanguage "안녕하세요" = "en" ∧ detectLanguageRef "안녕하세요" = "ko" := by
  constructor <;> rfl

/-- Claim C9: on input with no non-whitespace character, `detectLanguage`
terminates and returns `"en"` (the `0/0` ratio is `NaN`, and `NaN > 0.3`
is false). -/
theorem detectLanguage_blank_en (text : String)
    (h : (text.data.filter (fun c => !isJsWhitespace c)).length = 0) :
    detectLanguage text = "en" := by
  have hko : text.data.any isKoreanChar = false := by
    rw [List.any_eq_false]
    intro c hc
    intro hkc
    have hw : isJsWhitespace c = false := isKoreanChar_not_whitespace c hkc
    have : c ∈ text.data.filter (fun c => !isJsWhitespace c) := by
      rw [List.mem_filter]
      exact ⟨hc, by rw [hw]; rfl⟩
    rcases List.eq_nil_of_length_eq_zero h ▸ this with ⟨⟩
  simp [detectLanguage, hko, h]

/-- Witness for C9 at the concrete whitespace-only input `" \t "`. -/
theorem detectLanguage_blank_en_witness : detectLanguage " \t " = "en" :=
  detectLanguage_blank_en " \t " (by decide)

/-! ## Similarity scorer (`calculateTextSimilarity`, ai.js lines 108-156) -/

/-- ASCII lowercasing, modelling `toLowerCase()` on the character range
that survives the subsequent `[^\w\s가-힣]` filter (the JavaScript word
class `\w` is ASCII-only, so non-ASCII letters are dropped whether or not
they were lowercased first). -/
def jsToLower (c : Char) : Char :=
  if 0x41 ≤ c.toNat && c.toNat ≤ 0x5A then Char.ofNat (c.toNat + 0x20) else c

/-- The JavaScript regex class `\w`, i.e. `[A-Za-z0-9_]`. -/
def isWordChar (c : Char) : Bool :=
  (0x41 ≤ c.toNat && c.toNat ≤ 0x5A) || (0x61 ≤ c.toNat && c.toNat ≤ 0x7A) ||
  (0x30 ≤ c.toNat && c.toNat ≤ 0x39) || c.toNat = 0x5F

/-- The regex range `가-힣` (precomposed Hangul syllables). -/
def isHangulSyllable (c : Char) : Bool :=
  0xAC00 ≤ c.toNat && c.toNat ≤ 0xD7A3

/-- Lowercase and keep only word characters, whitespace and Hangul
syllables: `text.toLowerCase().replace(/[^\w\s가-힣]/g, '')`. -/
def normalizeChars (l : List Char) : List Char :=
  (l.map jsToLower).filter
    (fun c => isWordChar c || isJsWhitespace c || isHangulSyllable c)

/-- JavaScript `trim()`: strip leading and trailing whitespace. -/
def jsTrimList (l : List Char) : List Char :=
  ((l.dropWhile isJsWhitespace).reverse.dropWhile isJsWhitespace).reverse

/-- Split on separator characters and drop empty chunks:
`text.split(/\s+/).filter(t => t.length > 0)`. -/
def tokensOfP (p : α → Bool) (l : List α) : List (List α) :=
  (l.splitOnP p).filter (fun t => !t.isEmpty)

/-- The scorer's tokenizer (ai.js lines 109-110): normalize (including
the trailing `trim()`), split on whitespace, drop empty tokens. -/
def tokenize (s : String) : List String :=
  (tokensOfP isJsWhitespace (jsTrimList (normalizeChars s.data))).map
    (fun t => (⟨t⟩ : String))

/-- Reference tokenizer following §4.2 steps 1-2 verbatim: "Normalize
each text: lowercase, strip all characters except word characters,
whitespace, and Hangul syllables. Tokenize by whitespace splitting, drop
empty tokens." (No `trim` is mentioned.) -/
def tokenizeRef (s : String) : List String :=
  (tokensOfP isJsWhitespace (normalizeChars s.data)).map
    (fun t => (⟨t⟩ : String))

/-- Result record of the similarity scorer. -/
structure Score where
  score : ℤ
  explanation : String
deriving DecidableEq

/-- Explanation banding of the combined score (ai.js lines 141-150). -/
def explanationFor (combinedScore : ℤ) : String :=
  if combinedScore ≥ 85 then "Excellent semantic preservation"
  else if combinedScore ≥ 70 then "Good meaning retention with minor variations"
  else if combinedScore ≥ 50 then "Moderate similarity - some nuances may differ"
  else "Translation may have significant interpretation"

/-- `matchCount` (ai.js lines 123-128): tokens of the original set also
present in the back-translation set. -/
def matchCountOf (originalTokens backTokens : List String) : ℕ :=
  ((originalTokens.dedup).filter (fun t => decide (t ∈ backTokens.dedup))).length

/-- `unionSize` (ai.js line 131): size of the union of both token
sequences as a set. -/
def unionSizeOf (originalTokens backTokens : List String) : ℕ :=
  ((originalTokens ++ backTokens).dedup).length

/-- `jaccardScore = (matchCount / unionSize) * 100` (ai.js line 132). -/
def jaccardScoreOf (originalTokens backTokens : List String) : ℚ :=
  (matchCountOf originalTokens backTokens : ℚ) /
    (unionSizeOf originalTokens backTokens : ℚ) * 100

/-- `lengthRatio` (ai.js lines 135-136). -/
def lengthRatioOf (originalTokens backTokens : List String) : ℚ :=
  (↑(min originalTokens.length backTokens.length) : ℚ) /
    (↑(max originalTokens.length backTokens.length) : ℚ)

/-- `combinedScore = Math.round(jaccardScore * 0.7 + lengthRatio * 100 *
0.3)` (ai.js line 139). -/
def combinedScoreOf (originalTokens backTokens : List String) : ℤ :=
  round (jaccardScoreOf originalTokens backTokens * (7/10 : ℚ) +
    lengthRatioOf originalTokens backTokens * 100 * (3/10 : ℚ))

/-- Body of the scorer after tokenization (ai.js lines 115-155): the
explanation is chosen from the un-clamped combined score, while the
returned score is clamped to `[0, 100]`. -/
def scoreOfTokens (originalTokens backTokens : List String) : Score :=
  if originalTokens.length = 0 ∨ backTokens.length = 0 then
    ⟨0, "Unable to compare texts"⟩
  else
    ⟨min 100 (max 0 (combinedScoreOf originalTokens backTokens)),
      explanationFor (combinedScoreOf originalTokens backTokens)⟩

/-- Reference scorer body following §4.2 steps 3-9: the clamped combined
value is the score, and the explanation bands are read off that
(clamped) score. -/
def scoreOfTokensRef (originalTokens backTokens : List String) : Score :=
  if originalTokens.length = 0 ∨ backTokens.length = 0 then
    ⟨0, "Unable to compare texts"⟩
  else
    ⟨min 100 (max 0 (combinedScoreOf originalTokens backTokens)),
      explanationFor (min 100 (max 0 (combinedScoreOf originalTokens backTokens)))⟩

/-- `calculateTextSimilarity` (ai.js lines 108-156). -/
def calculateTextSimilarity (original backTranslation : String) : Score :=
  scoreOfTokens (tokenize original) (tokenize backTranslation)

/-- Reference similarity scorer assembled from the §4.2 reference steps. -/
def similarityScoreRef (original candidate : String) : Score :=
  scoreOfTokensRef (tokenizeRef original) (tokenizeRef candidate)

theorem tokensOfP_cons_of_pos (p : α → Bool) (c : α) (l : List α)
    (h : p c = true) : tokensOfP p (c :: l) = tokensOfP p l := by
  simp [tokensOfP, List.splitOnP_cons, h]

theorem splitOnP_concat_of_pos (p : α → Bool) (c : α) (l : List α)
    (h : p c = true) : (l ++ [c]).splitOnP p = l.splitOnP p ++ [[]] := by
  induction l with
  | nil => simp [List.splitOnP_cons, List.splitOnP_nil, h]
  | cons x xs ih =>
    rw [List.cons_append, List.splitOnP_cons, List.splitOnP_cons, ih]
    by_cases hx : p x = true
    · simp [hx]
    · rw [if_neg hx, if_neg hx]
      cases hsp : xs.splitOnP p with
      | nil => exact absurd hsp (List.splitOnP_ne_nil _ xs)
      | cons h₀ t₀ => simp [List.modifyHead]

theorem tokensOfP_concat_of_pos (p : α → Bool) (c : α) (l : List α)
    (h : p c = true) : tokensOfP p (l ++ [c]) = tokensOfP p l := by
  simp [tokensOfP, splitOnP_concat_of_pos p c l h, List.filter_append]

theorem tokensOfP_append_of_pos (p : α → Bool) (s : List α)
    (hs : ∀ c ∈ s, p c = true) :
    ∀ l : List α, tokensOfP p (l ++ s) = tokensOfP p l := by
  induction s with
  | nil => intro l; simp
  | cons d s ih =>
    intro l
    have hd : p d = true := hs d (List.mem_cons_self d s)
    have hrest : ∀ c ∈ s, p c = true := fun c hc => hs c (List.mem_cons_of_mem d hc)
    calc tokensOfP p (l ++ d :: s) = tokensOfP p ((l ++ [d]) ++ s) := by
          rw [List.append_assoc]; rfl
      _ = tokensOfP p (l ++ [d]) := ih hrest (l ++ [d])
      _ = tokensOfP p l := tokensOfP_concat_of_pos p d l hd

theorem tokensOfP_dropWhile (p : α → Bool) (l : List α) :
    tokensOfP p (l.dropWhile p) = tokensOfP p l := by
  induction l with
  | nil => rfl
  | cons x xs ih =>
    by_cases hx : p x = true
    · rw [List.dropWhile_cons_of_pos hx, ih, tokensOfP_cons_of_pos p x xs hx]
    · rw [List.dropWhile_cons_of_neg hx]

theorem tokensOfP_jsTrimList (l : List Char) :
    tokensOfP isJsWhitespace (jsTrimList l) = tokensOfP isJsWhitespace l := by
  unfold jsTrimList
  set ws := isJsWhitespace with hws
  set m := l.dropWhile ws with hm
  have hsplit : m = ((m.reverse.dropWhile ws).reverse) ++ ((m.reverse.takeWhile ws).reverse) := by
    conv_lhs => rw [← List.reverse_reverse m, ← List.takeWhile_append_dropWhile (p := ws) (l := m.reverse)]
    rw [List.reverse_append]
  have hsuffix : ∀ c ∈ (m.reverse.takeWhile ws).reverse, ws c = true := by
    intro c hc
    exact List.mem_takeWhile_imp (List.mem_reverse.mp hc)
  calc tokensOfP ws ((m.reverse.dropWhile ws).reverse)
      = tokensOfP ws (((m.reverse.dropWhile ws).reverse) ++ ((m.reverse.takeWhile ws).reverse)) :=
        (tokensOfP_append_of_pos ws _ hsuffix _).symm
    _ = tokensOfP ws m := by rw [← hsplit]
    _ = tokensOfP ws l := tokensOfP_dropWhile ws l

theorem tokenize_eq_tokenizeRef (s : String) : tokenize s = tokenizeRef s := by
  unfold tokenize tokenizeRef
  rw [tokensOfP_jsTrimList]

theorem scoreOfTokens_eq_ref (originalTokens backTokens : List String) :
    scoreOfTokens originalTokens backTokens = scoreOfTokensRef originalTokens backTokens := by
  unfold scoreOfTokens scoreOfTokensRef
  by_cases hempty : originalTokens.length = 0 ∨ backTokens.length = 0
  · rw [if_pos hempty, if_pos hempty]
  · rw [if_neg hempty, if_neg hempty]
    push_neg at hempty
    obtain ⟨ho, hb⟩ := hempty
    have hu : 0 < unionSizeOf originalTokens backTokens := by
      obtain ⟨x, hx⟩ := List.exists_mem_of_length_pos (Nat.pos_of_ne_zero ho)
      exact List.length_pos.mpr
        (List.ne_nil_of_mem (List.mem_dedup.mpr (List.mem_append_left _ hx)))
    have hm_le : matchCountOf originalTokens backTokens ≤ unionSizeOf originalTokens backTokens := by
      have hnd : ((originalTokens.dedup).filter
          (fun t => decide (t ∈ backTokens.dedup))).Nodup :=
        (List.nodup_dedup originalTokens).filter _
      have hsub : ((originalTokens.dedup).filter
          (fun t => decide (t ∈ backTokens.dedup))) ⊆ (originalTokens ++ backTokens).dedup := by
        intro x hx
        rw [List.mem_dedup]
        exact List.mem_append_left _ (List.mem_dedup.mp (List.mem_filter.mp hx).1)
      exact (List.subperm_of_subset hnd hsub).length_le
    have hj0 : 0 ≤ jaccardScoreOf originalTokens backTokens := by
      unfold jaccardScoreOf; positivity
    have hj1 : jaccardScoreOf originalTokens backTokens ≤ 100 := by
      unfold jaccardScoreOf
      have h1 : (matchCountOf originalTokens backTokens : ℚ) /
          (unionSizeOf originalTokens backTokens : ℚ) ≤ 1 := by
        rw [div_le_one (by exact_mod_cast hu)]
        exact_mod_cast hm_le
      have h2 := mul_le_mul_of_nonneg_right h1 (show (0:ℚ) ≤ 100 by norm_num)
      simpa using h2
    have hl0 : 0 ≤ lengthRatioOf originalTokens backTokens := by
      unfold lengthRatioOf; positivity
    have hl1 : lengthRatioOf originalTokens backTokens ≤ 1 := by
      unfold lengthRatioOf
      have hmaxpos : (0:ℚ) < (↑(max originalTokens.length backTokens.length) : ℚ) := by
        have : 0 < max originalTokens.length backTokens.length :=
          lt_of_lt_of_le (Nat.pos_of_ne_zero ho) (le_max_left _ _)
        exact_mod_cast this
      rw [div_le_one hmaxpos]
      exact_mod_cast min_le_max
    have hc0 : 0 ≤ combinedScoreOf originalTokens backTokens := by
      unfold combinedScoreOf
      rw [round_eq]
      apply Int.le_floor.mpr
      push_cast
      linarith
    have hc100 : combinedScoreOf originalTokens backTokens ≤ 100 := by
      unfold combinedScoreOf
      rw [round_eq]
      have hfl := Int.floor_le (jaccardScoreOf originalTokens backTokens * (7/10 : ℚ) +
        lengthRatioOf originalTokens backTokens * 100 * (3/10 : ℚ) + 1/2)
      have hlt : ((⌊jaccardScoreOf originalTokens backTokens * (7/10 : ℚ) +
          lengthRatioOf originalTokens backTokens * 100 * (3/10 : ℚ) + 1/2⌋ : ℤ) : ℚ) < 101 := by
        linarith
      have : (⌊jaccardScoreOf originalTokens backTokens * (7/10 : ℚ) +
          lengthRatioOf originalTokens backTokens * 100 * (3/10 : ℚ) + 1/2⌋ : ℤ) < 101 := by
        exact_mod_cast hlt
      omega
    have hclamp : min 100 (max 0 (combinedScoreOf originalTokens backTokens)) =
        combinedScoreOf originalTokens backTokens := by omega
    rw [hclamp]

/-- Claim C2: the similarity scorer coincides with the §4.2 reference
definition on every pair of texts — same normalization and tokenization
(the source's extra `trim()` cannot change the whitespace-split tokens),
same empty-token guard, same Jaccard/length-ratio formula, and the same
result whether the explanation bands are read off the raw or the clamped
combined score, because the combined score always lies in `[0, 100]`. -/
theorem calculateTextSimilarity_eq_ref (original backTranslation : String) :
    calculateTextSimilarity original backTranslation =
      similarityScoreRef original backTranslation := by
  unfold calculateTextSimilarity similarityScoreRef
  rw [tokenize_eq_tokenizeRef, tokenize_eq_tokenizeRef, scoreOfTokens_eq_ref]

/-! ## Profile store (`profiles.js`) -/

/-- A translation profile record. -/
structure Profile where
  id : String
  name : String
  description : String
  rules : List String
  isDefault : Bool
  canDelete : Bool
deriving DecidableEq

/-- The built-in profiles (profiles.js lines 9-47). -/
def DEFAULT_PROFILES : List Profile := [
  { id := "natural",
    name := "Natural",
    description := "Give a rough translation using common phrases instead of a direct translation to make the translation seem more natural",
    rules := [
      "Use common expressions and idioms in the target language",
      "Prioritize natural flow over literal accuracy",
      "Adapt cultural references to be more understandable"],
    isDefault := true,
    canDelete := false },
  { id := "parent-talk",
    name := "Parent Talk",
    description := "Give a rough translation based on informal Korean but appropriate for talking to your parents",
    rules := [
      "Use respectful but warm language (존댓말 with friendly tone)",
      "Avoid overly formal or stiff expressions",
      "Include appropriate honorifics for parents",
      "Soften direct statements to be more respectful"],
    isDefault := true,
    canDelete := false },
  { id := "direct",
    name := "Direct",
    description := "Provide a literal word-for-word translation preserving the exact meaning",
    rules := [
      "Translate as literally as possible",
      "Preserve original sentence structure when possible",
      "Keep cultural references intact with explanation if needed"],
    isDefault := true,
    canDelete := false }]

/-- Payload of a `saveProfile` request.  `id = none` models a request
body without an `id` field; an empty `name` or `description` models the
falsy values rejected by the validation (profiles.js line 88). -/
structure ProfileInput where
  id : Option String
  name : String
  description : String
  rules : Option (List String)
deriving DecidableEq

/-- The stored record built by `saveProfile` (profiles.js lines 95-102):
`id: profile.id || custom-Date.now()` (so an absent or empty id gets the
timestamp-generated one), `isDefault: false`, `canDelete: true`. -/
def newProfileOf (now : ℕ) (input : ProfileInput) : Profile :=
  { id := match input.id with
      | some i => if i = "" then "custom-" ++ toString now else i
      | none => "custom-" ++ toString now,
    name := input.name,
    description := input.description,
    rules := input.rules.getD [],
    isDefault := false,
    canDelete := true }

/-- `saveProfile` (profiles.js lines 87-112).  The custom store is the
explicit `customProfiles` list; `now` is the `Date.now()` value.
`findIndex(p => p.id === profile.id)` never matches when the payload has
no id.  A hit replaces the stored profile in place, a miss appends. -/
def saveProfile (now : ℕ) (input : ProfileInput) (customProfiles : List Profile) :
    Except String (Profile × List Profile) :=
  if input.name = "" ∨ input.description = "" then
    .error "Profile must have a name and description"
  else
    match customProfiles.findIdx? (fun p => decide (input.id = some p.id)) with
    | some idx => .ok (newProfileOf now input, customProfiles.set idx (newProfileOf now input))
    | none => .ok (newProfileOf now input, customProfiles ++ [newProfileOf now input])

/-- `getProfiles` (profiles.js lines 76-79): built-ins then customs. -/
def getProfiles (customProfiles : List Profile) : List Profile :=
  DEFAULT_PROFILES ++ customProfiles

/-- `getProfileById` (profiles.js lines 82-84). -/
def getProfileById (customProfiles : List Profile) (id : String) : Option Profile :=
  (getProfiles customProfiles).find? (fun p => decide (p.id = id))

/-- `deleteProfile` (profiles.js lines 115-126). -/
def deleteProfile (customProfiles : List Profile) (id : String) :
    Except String (List Profile) :=
  match getProfileById customProfiles id with
  | none => .error "Profile not found"
  | some profile =>
    if profile.canDelete = false then .error "Cannot delete default profiles"
    else .ok (customProfiles.filter (fun p => decide (p.id ≠ id)))

/-- Claim C5 (counterexample): starting from the built-ins with an empty
custom store, saving a payload whose explicit id is the built-in id
"natural" succeeds and stores a custom profile with that id, so the ids
of built-in ∪ custom are no longer pairwise distinct.  `saveProfile`
checks the payload id against the custom store only, never against
`DEFAULT_PROFILES`. -/
theorem saveProfile_builtin_id_collision :
    saveProfile 0 ⟨some "natural", "x", "y", none⟩ [] =
      .ok (⟨"natural", "x", "y", [], false, true⟩,
           [⟨"natural", "x", "y", [], false, true⟩]) ∧
    ¬ ((DEFAULT_PROFILES ++
        [(⟨"natural", "x", "y", [], false, true⟩ : Profile)]).map Profile.id).Nodup := by
  exact ⟨rfl, by decide⟩

theorem map_set_eq_of_getElem_eq (f : α → β) :
    ∀ (l : List α) (i : ℕ) (a : α) (h : i < l.length),
      f l[i] = f a → (l.set i a).map f = l.map f := by
  intro l
  induction l with
  | nil => intro i a h; exact absurd h (by simp)
  | cons x xs ih =>
    intro i a h heq
    cases i with
    | zero =>
      rw [List.getElem_cons_zero] at heq
      simp [heq]
    | succ i =>
      rw [List.getElem_cons_succ] at heq
      simp only [List.set_cons_succ, List.map_cons]
      rw [ih i a (by simpa using h) heq]

theorem nodup_map_set_of_not_mem (f : α → β) :
    ∀ (l : List α) (i : ℕ) (a : α),
      (l.map f).Nodup → f a ∉ l.map f → ((l.set i a).map f).Nodup := by
  intro l
  induction l with
  | nil => intro i a _ _; simp
  | cons x xs ih =>
    intro i a hnd hnm
    rw [List.map_cons, List.nodup_cons] at hnd
    rw [List.map_cons, List.mem_cons] at hnm
    push_neg at hnm
    cases i with
    | zero =>
      rw [List.set_cons_zero, List.map_cons, List.nodup_cons]
      exact ⟨hnm.2, hnd.2⟩
    | succ i =>
      rw [List.set_cons_succ, List.map_cons, List.nodup_cons]
      refine ⟨?_, ih i a hnd.2 hnm.2⟩
      intro hmem
      obtain ⟨y, hy, hfy⟩ := List.mem_map.mp hmem
      rcases List.mem_or_eq_of_mem_set hy with hyl | hya
      · exact hnd.1 (hfy ▸ List.mem_map_of_mem f hyl)
      · exact hnm.1 (hya ▸ hfy)

/-- Claim C5 (amended): id distinctness is maintained only inside the
custom store, and for `saveProfile` only provided the timestamp-generated
id `custom-<now>` is not already present there: a hit replaces the record
at the found index (keeping the id when the payload id is non-empty,
or re-keying an empty-id record to the fresh generated id), and a miss
appends a record whose id is either the absent-from-store payload id or
the fresh generated id.  `deleteProfile` filters the custom store and
also preserves distinctness.  No check against the built-in ids is
performed (see the counterexample). -/
theorem saveProfile_custom_ids_nodup :
    (∀ (now : ℕ) (input : ProfileInput) (customs : List Profile)
        (newP : Profile) (outCustoms : List Profile),
      (customs.map Profile.id).Nodup →
      ("custom-" ++ toString now) ∉ customs.map Profile.id →
      saveProfile now input customs = .ok (newP, outCustoms) →
      (outCustoms.map Profile.id).Nodup) ∧
    (∀ (customs : List Profile) (id : String) (outCustoms : List Profile),
      (customs.map Profile.id).Nodup →
      deleteProfile customs id = .ok outCustoms →
      (outCustoms.map Profile.id).Nodup) := by
  constructor
  · intro now input customs newP outCustoms hnd hfresh hsave
    unfold saveProfile at hsave
    split at hsave
    · exact absurd hsave (by simp)
    · cases hfind : customs.findIdx? (fun p => decide (input.id = some p.id)) with
      | some idx =>
        rw [hfind] at hsave
        obtain ⟨-, hout⟩ := Prod.mk.injEq .. ▸ Except.ok.inj hsave
        obtain ⟨hlt, hq, -⟩ := List.findIdx?_eq_some_iff_getElem.mp hfind
        have hqid : input.id = some customs[idx].id := by simpa using hq
        subst hout
        rcases hid : input.id with - | i
        · rw [hid] at hqid; exact Option.noConfusion hqid
        · rw [hid, Option.some.injEq] at hqid
          by_cases hi : i = ""
          · -- the matched record has the empty id; the new record gets the
            -- fresh generated id
            apply nodup_map_set_of_not_mem _ _ _ _ hnd
            simpa [newProfileOf, hid, hi] using hfresh
          · -- the record keeps its id, so the id list is unchanged
            have hnp : (newProfileOf now input).id = i := by
              simp [newProfileOf, hid, hi]
            rw [map_set_eq_of_getElem_eq Profile.id customs idx _ hlt
              (by rw [hnp, ← hqid])]
            exact hnd
      | none =>
        rw [hfind] at hsave
        obtain ⟨-, hout⟩ := Prod.mk.injEq .. ▸ Except.ok.inj hsave
        subst hout
        rw [List.map_append, List.nodup_append]
        refine ⟨hnd, List.nodup_singleton _, ?_⟩
        intro x hx hx'
        rw [List.map_singleton, List.mem_singleton] at hx'
        subst hx'
        have hnotin : ∀ p ∈ customs, input.id ≠ some p.id := by
          intro p hp
          have := List.findIdx?_eq_none_iff.mp hfind p hp
          simpa using this
        rcases hid : input.id with - | i
        · have hgen : (newProfileOf now input).id = "custom-" ++ toString now := by
            simp [newProfileOf, hid]
          rw [hgen] at hx
          exact hfresh hx
        · by_cases hi : i = ""
          · have hgen : (newProfileOf now input).id = "custom-" ++ toString now := by
              simp [newProfileOf, hid, hi]
            rw [hgen] at hx
            exact hfresh hx
          · have hgen : (newProfileOf now input).id = i := by
              simp [newProfileOf, hid, hi]
            rw [hgen] at hx
            obtain ⟨p, hp, hpid⟩ := List.mem_map.mp hx
            exact hnotin p hp (by rw [hid, hpid])
  · intro customs id outCustoms hnd hdel
    unfold deleteProfile at hdel
    split at hdel
    · exact absurd hdel (by simp)
    · split at hdel
      · exact absurd hdel (by simp)
      · obtain hout := Except.ok.inj hdel
        subst hout
        exact List.Nodup.sublist ((List.filter_sublist _).map Profile.id) hnd

/-- Witness for the amended C5 at a concrete save into the empty store. -/
theorem saveProfile_custom_ids_nodup_witness :
    (([newProfileOf 1 ⟨none, "a", "b", none⟩]).map Profile.id).Nodup :=
  saveProfile_custom_ids_nodup.1 1 ⟨none, "a", "b", none⟩ []
    (newProfileOf 1 ⟨none, "a", "b", none⟩) [newProfileOf 1 ⟨none, "a", "b", none⟩]
    (by simp) (by simp) rfl

/-! ## DeepL formality resolution and fallback (`translateText`, ai.js
lines 159-241) -/

/-- The profile-to-formality chain of ai.js lines 178-190. -/
def resolveFormality (profileId : String) : String :=
  if profileId = "natural" then "prefer_more"
  else if profileId = "parent-talk" then "default"
  else if profileId = "direct" then "prefer_less"
  else "default"

/-- `targetLanguage` of ai.js lines 160-161: the opposite of the detected
source language, with the regional code `en-US` for English. -/
def targetLanguageOf (text : String) : String :=
  if detectLanguage text = "ko" then "en-US" else "ko"

/-- The formality field of the options object passed to the first DeepL
call (ai.js line 196): `targetLanguage === 'ko' ? { formality } : {}`. -/
def sentFormality (text profileId : String) : Option String :=
  if targetLanguageOf text = "ko" then some (resolveFormality profileId) else none

/-- The detector always answers one of the two codes. -/
theorem detectLanguage_en_or_ko (text : String) :
    detectLanguage text = "en" ∨ detectLanguage text = "ko" := by
  simp only [detectLanguage]
  split_ifs <;> simp

/-- Claim C3 (counterexample): the formality parameter actually sent to
DeepL is not a fixed table of the profile id independent of the language
pair — for the Korean input "한" under profile "natural" the request
carries no formality at all, although the table maps "natural" to
`prefer_more`. -/
theorem sentFormality_depends_on_language_pair :
    detectLanguage "한" = "ko" ∧ resolveFormality "natural" = "prefer_more" ∧
    sentFormality "한" "natural" = none :=
  ⟨rfl, rfl, rfl⟩

/-- Claim C3 (amended): the resolved formality value is the fixed table
`natural ↦ prefer_more`, `parent-talk ↦ default`, `direct ↦ prefer_less`
(any other id ↦ `default`), independent of the input text; but it is
attached to the backend request only when the target language is Korean
(i.e. the detected source is English) — for English targets no formality
is sent. -/
theorem resolveFormality_table :
    resolveFormality "natural" = "prefer_more" ∧
    resolveFormality "parent-talk" = "default" ∧
    resolveFormality "direct" = "prefer_less" ∧
    (∀ profileId, profileId ≠ "natural" → profileId ≠ "parent-talk" →
      profileId ≠ "direct" → resolveFormality profileId = "default") ∧
    (∀ text profileId, sentFormality text profileId =
      if detectLanguage text = "en" then some (resolveFormality profileId) else none) := by
  refine ⟨rfl, rfl, rfl, ?_, ?_⟩
  · intro profileId h1 h2 h3
    simp [resolveFormality, h1, h2, h3]
  · intro text profileId
    rcases detectLanguage_en_or_ko text with h | h <;>
      simp [sentFormality, targetLanguageOf, h]

/-- Witness for the amended C3 at a concrete non-built-in profile id. -/
theorem resolveFormality_table_witness : resolveFormality "my-style" = "default" :=
  resolveFormality_table.2.2.2.1 "my-style" (by decide) (by decide) (by decide)

/-- Outcome of the guarded primary DeepL call: the surfaced result plus
the trace of formality options carried by the calls actually issued. -/
structure FallbackOutcome where
  result : Except String String
  calls : List (Option String)

/-- The inner try/catch of ai.js lines 192-201: one call with the
resolved options; if it throws, exactly one more call without any
options, whose outcome (success or failure) is what the caller sees. -/
def translateWithFormalityFallback (backend : Option String → Except String String)
    (formalityOpt : Option String) : FallbackOutcome :=
  match backend formalityOpt with
  | .ok t => ⟨.ok t, [formalityOpt]⟩
  | .error _ => ⟨backend none, [formalityOpt, none]⟩

/-- Claim C4: the first attempt carries the resolved formality options;
a retry happens exactly when that call fails, is made exactly once, and
carries no formality hint; when the retry succeeds the first rejection is
not surfaced (the caller sees the retry's outcome); never more than two
calls are issued. -/
theorem translate_formality_fallback (backend : Option String → Except String String)
    (formalityOpt : Option String) :
    (∀ t, backend formalityOpt = .ok t →
      (translateWithFormalityFallback backend formalityOpt).result = .ok t ∧
      (translateWithFormalityFallback backend formalityOpt).calls = [formalityOpt]) ∧
    (∀ e, backend formalityOpt = .error e →
      (translateWithFormalityFallback backend formalityOpt).calls = [formalityOpt, none] ∧
      (translateWithFormalityFallback backend formalityOpt).result = backend none) ∧
    (translateWithFormalityFallback backend formalityOpt).calls.length ≤ 2 ∧
    (∀ o ∈ (translateWithFormalityFallback backend formalityOpt).calls.tail, o = none) ∧
    (translateWithFormalityFallback backend formalityOpt).calls.head? = some formalityOpt := by
  refine ⟨?_, ?_, ?_, ?_, ?_⟩
  · intro t ht
    simp [translateWithFormalityFallback, ht]
  · intro e he
    simp [translateWithFormalityFallback, he]
  · cases hb : backend formalityOpt <;> simp [translateWithFormalityFallback, hb]
  · cases hb : backend formalityOpt <;> simp [translateWithFormalityFallback, hb]
  · cases hb : backend formalityOpt <;> simp [translateWithFormalityFallback, hb]

/-- A backend stub that rejects any formality hint but succeeds without
one. -/
def formalityRejectingBackend : Option String → Except String String :=
  fun o => match o with
    | some _ => .error "formality not supported"
    | none => .ok "hello"

/-- Witness for C4 at the formality-rejecting stub: one retry without a
hint, whose success is surfaced. -/
theorem translate_formality_fallback_witness :
    (translateWithFormalityFallback formalityRejectingBackend (some "prefer_more")).calls =
      [some "prefer_more", none] ∧
    (translateWithFormalityFallback formalityRejectingBackend (some "prefer_more")).result =
      formalityRejectingBackend none :=
  (translate_formality_fallback formalityRejectingBackend (some "prefer_more")).2.1
    "formality not supported" rfl

/-! ## Variation generation -/

/-- JavaScript `trim()` on strings. -/
def jsTrim (s : String) : String := ⟨jsTrimList s.data⟩

/-- A double or single quote character. -/
def isQuoteChar (c : Char) : Bool := c = '"' || c = Char.ofNat 39

/-- `replace(/^["']|["']$/g, '')`: remove one leading and one trailing
quote character. -/
def stripQuoteChars (l : List Char) : List Char :=
  let l1 := match l with
    | [] => []
    | c :: rest => if isQuoteChar c then rest else c :: rest
  match l1.getLast? with
  | some c => if isQuoteChar c then l1.dropLast else l1
  | none => l1

/-- String version of `stripQuoteChars`. -/
def jsStripQuotes (s : String) : String := ⟨stripQuoteChars s.data⟩

/-- The language name used in the generative prompts. -/
def languageNameOf (text : String) : String :=
  if detectLanguage text = "ko" then "Korean" else "English"

/-- `backToOriginal` of part_001 line 172. -/
def backToOriginalOf (text : String) : String :=
  if detectLanguage text = "ko" then "ko" else "en-US"

/-- `backOptions` of part_001 line 178: the literal back-translation
carries `prefer_less` only toward Korean. -/
def backOptionsOf (text : String) : Option String :=
  if backToOriginalOf text = "ko" then some "prefer_less" else none

/-- Result record of a variation request. -/
structure VariationResult where
  translation : String
  difference : String
deriving DecidableEq

/-- `formalityOptions` of part_001 line 183. -/
def formalityOptions : List String := ["prefer_less", "default", "prefer_more"]

/-- `currentFormality` of part_001 lines 186-188. -/
def currentFormalityOf (profileId : String) : String :=
  if profileId = "natural" then "prefer_more"
  else if profileId = "direct" then "prefer_less"
  else "default"

/-- `otherFormalities` of part_001 line 191. -/
def otherFormalitiesOf (profileId : String) : List String :=
  formalityOptions.filter (fun f => decide (f ≠ currentFormalityOf profileId))

/-- `newFormality` of part_001 line 192; `pick` models the random index
`Math.floor(Math.random() * otherFormalities.length)` into the
two-element remainder. -/
def newFormalityOf (profileId : String) (pick : Fin 2) : String :=
  (otherFormalitiesOf profileId).getD pick.val "default"

/-- `alternateFormality` of part_001 line 202:
`otherFormalities.find(f => f !== newFormality) || 'default'` (an empty
string found would be falsy, hence the inner guard). -/
def alternateFormalityOf (profileId : String) (pick : Fin 2) : String :=
  match (otherFormalitiesOf profileId).find?
      (fun f => decide (f ≠ newFormalityOf profileId pick)) with
  | some f => if f = "" then "default" else f
  | none => "default"

/-- `forwardOptions` of part_001 line 195: the chosen formality is
attached only when translating toward Korean. -/
def forwardOptionsOf (text profileId : String) (pick : Fin 2) : Option String :=
  if targetLanguageOf text = "ko" then some (newFormalityOf profileId pick) else none

/-- `altOptions` of part_001 line 203. -/
def altOptionsOf (text profileId : String) (pick : Fin 2) : Option String :=
  if targetLanguageOf text = "ko" then some (alternateFormalityOf profileId pick) else none

/-- The difference note of part_001 lines 209-211 and 222-229. -/
def formalityDiffNote (f : String) : String :=
  if f = "prefer_more" then "More formal/polite variation"
  else if f = "prefer_less" then "More casual/direct variation"
  else "Standard formality variation"

/-- `generateVariation` of part_001 lines 167-243 (the formality-cycling
strategy).  `tr text target formalityOpt` models
`translator.translateText(text, null, target, options)`; part_001's
`translationLanguage` is `targetLanguageOf`.  Any thrown backend error is
caught by the surrounding try/catch, which returns the current
translation with a "Variation unavailable" note. -/
def generateVariationFormality
    (tr : String → String → Option String → Except String String) (pick : Fin 2)
    (originalText currentTranslation profileId : String) : VariationResult :=
  match tr currentTranslation (backToOriginalOf originalText) (backOptionsOf originalText) with
  | .error e => ⟨currentTranslation, "Variation unavailable: " ++ e⟩
  | .ok backText =>
    match tr backText (targetLanguageOf originalText)
        (forwardOptionsOf originalText profileId pick) with
    | .error e => ⟨currentTranslation, "Variation unavailable: " ++ e⟩
    | .ok newTranslation =>
      if newTranslation = currentTranslation then
        match tr backText (targetLanguageOf originalText)
            (altOptionsOf originalText profileId pick) with
        | .error e => ⟨currentTranslation, "Variation unavailable: " ++ e⟩
        | .ok altText =>
          if altText ≠ currentTranslation then
            ⟨altText, formalityDiffNote (alternateFormalityOf profileId pick)⟩
          else
            ⟨currentTranslation, "This translation is already optimal. Try a different phrase."⟩
      else ⟨newTranslation, formalityDiffNote (newFormalityOf profileId pick)⟩

/-- The rephrase prompt of ai.js lines 261-267. -/
def variationPrompt (originalText : String) (customRules : List String)
    (languageName : String) : String :=
  "Rephrase this " ++ languageName ++
  " text in a different way while keeping the same meaning. Use different words, sentence structure, or style.\n\nORIGINAL: \"" ++
  originalText ++ "\"\n\nRules to consider: " ++
  (if customRules.length > 0 then String.intercalate ", " customRules
    else "None - just rephrase naturally") ++
  "\n\nReturn ONLY the rephrased text in " ++ languageName ++ ", nothing else:"

/-- `options` of ai.js line 279: the forward DeepL call of the rephrase
strategy uses `default` formality toward Korean, nothing otherwise. -/
def rephraseOptionsOf (text : String) : Option String :=
  if targetLanguageOf text = "ko" then some "default" else none

/-- `generateVariation` of ai.js lines 251-301 (the Perplexity-rephrase
strategy): prompt Perplexity for a rephrasing of the original, strip
quotes, translate the rephrased text with DeepL, and fall back to the
current translation with a "Variation unavailable" note if either
backend call fails. -/
def generateVariationRephrase (px : String → Except String String)
    (tr : String → String → Option String → Except String String)
    (originalText currentTranslation profileId : String)
    (customRules : List String) : VariationResult :=
  match px (variationPrompt originalText customRules (languageNameOf originalText)) with
  | .error e => ⟨currentTranslation, "Variation unavailable: " ++ e⟩
  | .ok content =>
    match tr (jsStripQuotes (jsTrim content)) (targetLanguageOf originalText)
        (rephraseOptionsOf originalText) with
    | .error e => ⟨currentTranslation, "Variation unavailable: " ++ e⟩
    | .ok t =>
      if t = currentTranslation then
        ⟨currentTranslation, "Generated similar translation. Try adding custom rules for more variety."⟩
      else ⟨t, "Rephrased from: \"" ++ jsStripQuotes (jsTrim content) ++ "\""⟩

/-- A deterministic DeepL stub that answers per target language only —
it has two distinguishable outputs, but ignores formality. -/
def sameOutputBackend : String → String → Option String → Except String String :=
  fun _ target _ => .ok (if target = "en-US" then "hello" else "뒤로")

/-- Claim C6 (counterexample): for the Korean original "한" (forward
direction into English) no formality hint is attached to either attempt,
so under the deterministic stub — which does have two distinguishable
outputs — both attempts reproduce the current translation and the
function returns it unchanged with the "already optimal" message,
falsifying "the returned translation is never identical to
currentTranslation". -/
theorem generateVariationFormality_returns_current :
    generateVariationFormality sameOutputBackend 0 "한" "hello" "natural" =
      ⟨"hello", "This translation is already optimal. Try a different phrase."⟩ ∧
    (sameOutputBackend "x" "ko" none).toOption ≠ (sameOutputBackend "x" "en-US" none).toOption :=
  ⟨rfl, by decide⟩

/-- The remainder list after excluding the profile's formality always
has exactly the two other levels, the random pick is one of them, and
the alternate is the other one. -/
theorem otherFormalities_structure (profileId : String) (pick : Fin 2) :
    newFormalityOf profileId pick ∈ otherFormalitiesOf profileId ∧
    alternateFormalityOf profileId pick ∈ otherFormalitiesOf profileId ∧
    newFormalityOf profileId pick ≠ alternateFormalityOf profileId pick ∧
    (otherFormalitiesOf profileId).length = 2 := by
  by_cases h1 : profileId = "natural"
  · subst h1; fin_cases pick <;> exact ⟨by decide, by decide, by decide, by decide⟩
  · by_cases h2 : profileId = "direct"
    · subst h2; fin_cases pick <;> exact ⟨by decide, by decide, by decide, by decide⟩
    · have hc : currentFormalityOf profileId = "default" := by
        simp [currentFormalityOf, h1, h2]
      have ho : otherFormalitiesOf profileId = ["prefer_less", "prefer_more"] := by
        simp only [otherFormalitiesOf, hc]
        rfl
      have hn : ∀ pk : Fin 2, newFormalityOf profileId pk =
          if pk.val = 0 then "prefer_less" else "prefer_more" := by
        intro pk
        fin_cases pk <;> simp [newFormalityOf, ho]
      have ha : ∀ pk : Fin 2, alternateFormalityOf profileId pk =
          if pk.val = 0 then "prefer_more" else "prefer_less" := by
        intro pk
        fin_cases pk <;> simp only [alternateFormalityOf, ho, hn] <;> rfl
      rw [ho, hn, ha]
      fin_cases pick <;> exact ⟨by decide, by decide, by decide, by decide⟩

/-- Claim C6 (amended): when the forward direction is into Korean (the
original is English), the first re-translation carries a formality level
taken from the two levels other than the profile's, the retry — made
exactly when the first result equals the current translation — carries
the last remaining level, and whenever the two attempted calls give
distinct results the returned translation differs from
`currentTranslation` (it is the first attempt's result, or the second's
if the first reproduced the current translation).  For Korean originals
no formality is attached to either attempt (see the counterexample). -/
theorem generateVariationFormality_distinct
    (tr : String → String → Option String → Except String String) (pick : Fin 2)
    (originalText currentTranslation profileId backText t1 t2 : String)
    (hdet : detectLanguage originalText = "en")
    (hback : tr currentTranslation "en-US" none = .ok backText)
    (hfwd : tr backText "ko" (some (newFormalityOf profileId pick)) = .ok t1)
    (halt : tr backText "ko" (some (alternateFormalityOf profileId pick)) = .ok t2)
    (hne : t1 ≠ t2) :
    (generateVariationFormality tr pick originalText currentTranslation profileId).translation =
      (if t1 = currentTranslation then t2 else t1) ∧
    (generateVariationFormality tr pick originalText currentTranslation profileId).translation ≠
      currentTranslation ∧
    newFormalityOf profileId pick ∈ otherFormalitiesOf profileId ∧
    alternateFormalityOf profileId pick ∈ otherFormalitiesOf profileId ∧
    newFormalityOf profileId pick ≠ alternateFormalityOf profileId pick := by
  have hbto : backToOriginalOf originalText = "en-US" := by
    unfold backToOriginalOf; rw [hdet, if_neg (by decide)]
  have hbo : backOptionsOf originalText = none := by
    unfold backOptionsOf; rw [hbto, if_neg (by decide)]
  have htl : targetLanguageOf originalText = "ko" := by
    unfold targetLanguageOf; rw [hdet, if_neg (by decide)]
  have hfo : forwardOptionsOf originalText profileId pick =
      some (newFormalityOf profileId pick) := by
    unfold forwardOptionsOf; rw [htl, if_pos rfl]
  have hao : altOptionsOf originalText profileId pick =
      some (alternateFormalityOf profileId pick) := by
    unfold altOptionsOf; rw [htl, if_pos rfl]
  have hstruct := otherFormalities_structure profileId pick
  have hres : (generateVariationFormality tr pick originalText currentTranslation profileId) =
      (if t1 = currentTranslation
        then (⟨t2, formalityDiffNote (alternateFormalityOf profileId pick)⟩ : VariationResult)
        else ⟨t1, formalityDiffNote (newFormalityOf profileId pick)⟩) := by
    simp only [generateVariationFormality, hbto, hbo, htl, hfo, hao, hback, hfwd, halt]
    by_cases ht1 : t1 = currentTranslation
    · have ht2 : t2 ≠ currentTranslation := by
        rw [← ht1]; exact fun h => hne h.symm
      rw [if_pos ht1, if_pos ht2, if_pos ht1]
    · rw [if_neg ht1, if_neg ht1]
  refine ⟨?_, ?_, hstruct.1, hstruct.2.1, hstruct.2.2.1⟩
  · rw [hres]
    by_cases ht1 : t1 = currentTranslation
    · rw [if_pos ht1, if_pos ht1]
    · rw [if_neg ht1, if_neg ht1]
  · rw [hres]
    by_cases ht1 : t1 = currentTranslation
    · rw [if_pos ht1]
      exact fun h => hne (ht1.trans h.symm)
    · rw [if_neg ht1]
      exact ht1

/-- A deterministic DeepL stub distinguishing the formality levels. -/
def formalitySensitiveBackend : String → String → Option String → Except String String :=
  fun _ _ fo => match fo with
    | some f =>
      if f = "prefer_less" then .ok "casual"
      else if f = "prefer_more" then .ok "formal"
      else .ok "standard"
    | none => .ok "back"

/-- Witness for the amended C6: with the formality-distinguishing stub
and an English original, the variation differs from the current
translation. -/
theorem generateVariationFormality_distinct_witness :
    (generateVariationFormality formalitySensitiveBackend 0 "hi" "cur" "natural").translation ≠
      "cur" :=
  (generateVariationFormality_distinct formalitySensitiveBackend 0 "hi" "cur" "natural"
    "back" "casual" "standard" rfl rfl rfl rfl (by decide)).2.1

/-- Claim C7: in both variation strategies, every backend failure is
absorbed: the function returns the current translation together with
"Variation unavailable: " followed by the upstream cause message, at
every failure point (the rephrase prompt call, the rephrase forward
translation, the formality strategy's back-translation, its first
forward attempt, and its retry). -/
theorem generateVariation_failure_tolerant
    (px : String → Except String String)
    (tr : String → String → Option String → Except String String)
    (originalText currentTranslation profileId : String)
    (customRules : List String) (pick : Fin 2) :
    (∀ e, px (variationPrompt originalText customRules (languageNameOf originalText)) = .error e →
      generateVariationRephrase px tr originalText currentTranslation profileId customRules =
        ⟨currentTranslation, "Variation unavailable: " ++ e⟩) ∧
    (∀ content e,
      px (variationPrompt originalText customRules (languageNameOf originalText)) = .ok content →
      tr (jsStripQuotes (jsTrim content)) (targetLanguageOf originalText)
        (rephraseOptionsOf originalText) = .error e →
      generateVariationRephrase px tr originalText currentTranslation profileId customRules =
        ⟨currentTranslation, "Variation unavailable: " ++ e⟩) ∧
    (∀ e, tr currentTranslation (backToOriginalOf originalText) (backOptionsOf originalText) =
        .error e →
      generateVariationFormality tr pick originalText currentTranslation profileId =
        ⟨currentTranslation, "Variation unavailable: " ++ e⟩) ∧
    (∀ backText e,
      tr currentTranslation (backToOriginalOf originalText) (backOptionsOf originalText) =
        .ok backText →
      tr backText (targetLanguageOf originalText)
        (forwardOptionsOf originalText profileId pick) = .error e →
      generateVariationFormality tr pick originalText currentTranslation profileId =
        ⟨currentTranslation, "Variation unavailable: " ++ e⟩) ∧
    (∀ backText e,
      tr currentTranslation (backToOriginalOf originalText) (backOptionsOf originalText) =
        .ok backText →
      tr backText (targetLanguageOf originalText)
        (forwardOptionsOf originalText profileId pick) = .ok currentTranslation →
      tr backText (targetLanguageOf originalText)
        (altOptionsOf originalText profileId pick) = .error e →
      generateVariationFormality tr pick originalText currentTranslation profileId =
        ⟨currentTranslation, "Variation unavailable: " ++ e⟩) := by
  refine ⟨?_, ?_, ?_, ?_, ?_⟩
  · intro e he
    simp only [generateVariationRephrase, he]
  · intro content e hc he
    simp only [generateVariationRephrase, hc, he]
  · intro e he
    simp only [generateVariationFormality, he]
  · intro backText e hb he
    simp only [generateVariationFormality, hb, he]
  · intro backText e hb hf he
    simp only [generateVariationFormality, hb, hf, if_pos rfl, he, if_true]

/-- A generative backend stub that always fails. -/
def failingGenerativeBackend : String → Except String String :=
  fun _ => .error "quota exceeded"

/-- Witness for C7 at the always-failing Perplexity stub. -/
theorem generateVariation_failure_tolerant_witness :
    generateVariationRephrase failingGenerativeBackend formalitySensitiveBackend
      "hi" "cur" "natural" [] =
      ⟨"cur", "Variation unavailable: quota exceeded"⟩ :=
  (generateVariation_failure_tolerant failingGenerativeBackend formalitySensitiveBackend
    "hi" "cur" "natural" [] 0).1 "quota exceeded" rfl

/-! ## Custom-rule transformation (`applyCustomRules`, ai.js lines
51-105) and alternatives (ai.js lines 244-248) -/

/-- The numbered rule list of ai.js line 57. -/
def rulesListText (rules : List String) : String :=
  String.intercalate "\n" (rules.mapIdx (fun i r => toString (i + 1) ++ ". " ++ r))

/-- The transformation prompt of ai.js lines 60-75. -/
def rulesPrompt (text : String) (rules : List String) (languageName : String) : String :=
  "You are a text transformation assistant. Transform the following " ++ languageName ++
  " text according to the given rules.\n\nORIGINAL TEXT:\n\"" ++ text ++
  "\"\n\nRULES TO APPLY:\n" ++ rulesListText rules ++
  "\n\nIMPORTANT:\n- Keep the text in " ++ languageName ++
  " (do NOT translate)\n- Apply ALL the rules to transform the meaning, tone, or style\n- Return ONLY the transformed text, nothing else\n- If a rule doesn\x27t apply, skip it\n- Preserve the core meaning while applying the rules\n\nTRANSFORMED TEXT:"

/-- Result record of `applyCustomRules`; `error` is the optional message
attached when the backend failed. -/
structure ApplyRulesResult where
  transformedText : String
  appliedRules : List String
  error : Option String
deriving DecidableEq

/-- `applyCustomRules` (ai.js lines 51-105): empty rule lists short out
before any backend call; otherwise the Perplexity response is trimmed,
unquoted and trimmed again (an empty cleaned response falls back to the
original text); a thrown backend error yields the original text with no
applied rules and the cause message attached. -/
def applyCustomRules (px : String → Except String String) (text : String)
    (rules : List String) (sourceLanguage : String) : ApplyRulesResult :=
  if rules = [] then ⟨text, [], none⟩
  else
    match px (rulesPrompt text rules (if sourceLanguage = "ko" then "Korean" else "English")) with
    | .error e => ⟨text, [], some e⟩
    | .ok content =>
      let cleaned := jsTrim (jsStripQuotes (jsTrim content))
      ⟨if cleaned = "" then text else cleaned, rules, none⟩

/-- Claim C8: with an empty rule list `applyCustomRules` returns the text
unchanged with no applied rules, identically for every backend (so no
backend is consulted); and when the backend call fails the function does
not throw but returns the original text unchanged, `appliedRules = []`,
and the cause message attached. -/
theorem applyCustomRules_atomic (px px' : String → Except String String)
    (text : String) (rules : List String) (sourceLanguage : String) :
    (applyCustomRules px text [] sourceLanguage = ⟨text, [], none⟩) ∧
    (applyCustomRules px text [] sourceLanguage = applyCustomRules px' text [] sourceLanguage) ∧
    (∀ e, rules ≠ [] →
      px (rulesPrompt text rules (if sourceLanguage = "ko" then "Korean" else "English")) =
        .error e →
      applyCustomRules px text rules sourceLanguage = ⟨text, [], some e⟩) := by
  refine ⟨rfl, rfl, ?_⟩
  intro e hrules he
  unfold applyCustomRules
  rw [if_neg hrules, he]

/-- Witness for C8 at the always-failing backend with one rule. -/
theorem applyCustomRules_atomic_witness :
    applyCustomRules failingGenerativeBackend "hello" ["use slang"] "en" =
      ⟨"hello", [], some "quota exceeded"⟩ :=
  (applyCustomRules_atomic failingGenerativeBackend failingGenerativeBackend
    "hello" ["use slang"] "en").2.2 "quota exceeded" (by decide) rfl

/-- An alternative word suggestion. -/
structure Alternative where
  text : String
  nuance : String
deriving DecidableEq

/-- `getAlternatives` (ai.js lines 244-248): the placeholder that returns
the highlighted word itself with a fixed nuance label. -/
def getAlternatives (word context sourceLanguage targetLanguage : String) :
    List Alternative :=
  [⟨word, "Original translation (DeepL)"⟩]

/-- Claim C10: `getAlternatives` is the constant single-element list
`[{text: word, nuance: "Original translation (DeepL)"}]`, independent of
the context and the language pair, never failing and never producing a
genuinely different alternative. -/
theorem getAlternatives_constant (word context sourceLanguage targetLanguage : String) :
    getAlternatives word context sourceLanguage targetLanguage =
      [⟨word, "Original translation (DeepL)"⟩] ∧
    (∀ context' sourceLanguage' targetLanguage',
      getAlternatives word context sourceLanguage targetLanguage =
        getAlternatives word context' sourceLanguage' targetLanguage') ∧
    (getAlternatives word context sourceLanguage targetLanguage).length = 1 :=
  ⟨rfl, fun _ _ _ => rfl, rfl⟩

end KPT
